import Mathlib

/-!
Shallow embedding of the Hackflight attitude-control core:
`src/include/stabilize.hpp` (class Stabilize) and `src/include/mixer.hpp`
(class Mixer).

Conventions of the embedding:
* C `int16_t` / `int32_t` values are modelled as `Int`.  Signed-integer
  narrowing `int32_t -> int16_t` (which the hardware performs as a
  two's-complement wrap) is modelled explicitly by `toInt16`; 32-bit
  intermediate arithmetic is modelled as exact `Int` arithmetic (the
  per-tick quantities are far below 2^31).
* C `float` values and float arithmetic are modelled as exact rationals
  (`ℚ`); the C float-to-integer conversion (truncation toward zero) is
  modelled by `cTrunc`.
* C arrays indexed by axis (0 = roll, 1 = pitch, 2 = yaw) or by motor
  (0..3) are modelled as functions `Nat → Int`; in-place element updates
  become `Function.update`.
* Member functions that mutate the object are modelled as functions from
  the state to the new state (paired with the return value when the C
  function returns one).
-/

/-- Axis index of roll, first entry of the 3-element axis arrays. -/
def AXIS_ROLL : Nat := 0

/-- Axis index of pitch. -/
def AXIS_PITCH : Nat := 1

/-- Axis index of yaw. -/
def AXIS_YAW : Nat := 2

/-- Modelled from the spec: the RC demand array uses a fixed index order
consistent with the axis order (the stabilizer reads `rcCommand[axis]`
for axis = roll, pitch, yaw), with throttle in the remaining slot.
The header defining the `DEMAND_*` enumeration is not part of the
sources. Roll demand index. -/
def DEMAND_ROLL : Nat := 0

/-- Modelled from the spec: pitch demand index (see `DEMAND_ROLL`). -/
def DEMAND_PITCH : Nat := 1

/-- Modelled from the spec: yaw demand index (see `DEMAND_ROLL`). -/
def DEMAND_YAW : Nat := 2

/-- Modelled from the spec: throttle demand index (see `DEMAND_ROLL`). -/
def DEMAND_THROTTLE : Nat := 3

/-- Modelled from the spec: the shared numeric-range-clamp utility
(`constrain`) that both components depend on ("Both depend on a shared
numeric-range-clamp utility", spec §2); its defining header is not part
of the sources.  `constrain x lo hi` clamps `x` into `[lo, hi]`. -/
def constrain (x lo hi : Int) : Int :=
  if x < lo then lo else if hi < x then hi else x

/-- C float-to-signed-integer conversion: truncation toward zero. -/
def cTrunc (q : ℚ) : Int :=
  if 0 ≤ q then ⌊q⌋ else -⌊-q⌋

/-- Narrowing of a wider signed integer to `int16_t`: two's-complement
wrap into `[-32768, 32767]`. -/
def toInt16 (x : Int) : Int :=
  (x + 32768) % 65536 - 32768

/-- Modelled from the spec: the PID-gain configuration snapshot
(`PidConfig`): "per-axis proportional/integral/derivative gains for rate
control, a separate proportional gain for angle (leveling) control, and
a per-axis software-trim offset added to the final output" (spec §3).
The defining header is not part of the sources; the field names are the
ones used by `stabilize.hpp`.  Gains are C floats (here `ℚ`), the trim
is an integer offset. -/
structure PidConfig where
  levelP : ℚ
  ratePitchrollP : ℚ
  ratePitchrollI : ℚ
  ratePitchrollD : ℚ
  yawP : ℚ
  yawI : ℚ
  softwareTrim : Nat → Int

/-- Modelled from the spec: the IMU configuration snapshot, holding the
"maximum commanded inclination angle (symmetric bound used to clamp
stick-derived angle targets)" (spec §3). -/
structure ImuConfig where
  maxAngleInclination : Int

/-- Modelled from the spec: the PWM configuration snapshot, "minimum and
maximum valid motor command values" (spec §3). -/
structure PwmConfig where
  min : Int
  max : Int

/-- The mutable state of a `Stabilize` object (`stabilize.hpp` lines
34-53) together with its immutable configuration snapshots. -/
structure StabState where
  axisPID : Nat → Int
  lastGyro : Nat → Int
  delta1 : Nat → Int
  delta2 : Nat → Int
  errorGyroI : Nat → Int
  errorAngleI : Nat → Int
  imuConfig : ImuConfig
  pidConfig : PidConfig

namespace Stabilize

/-- Embedding of `Stabilize::computeITermGyro` (`stabilize.hpp` lines 82-93):
accumulates the rate error into `errorGyroI[axis]` with anti-windup
clamping to ±16000, zeroes it on large measured rate (or large yaw
stick for the yaw axis), and returns `(errorGyroI[axis]*rateI) >> 6`.
Returns the new state and the return value. -/
def computeITermGyro (s : StabState) (rateP rateI : ℚ) (rcCommand gyroADC : Nat → Int)
    (axis : Nat) : StabState × Int :=
  let error : Int := cTrunc ((rcCommand axis : ℚ) * rateP - (gyroADC axis : ℚ))
  let i0 : Int := constrain (s.errorGyroI axis + error) (-16000) 16000
  let i1 : Int :=
    if 640 < |gyroADC axis| ∨ (axis = AXIS_YAW ∧ 100 < |rcCommand axis|) then 0 else i0
  ({ s with errorGyroI := Function.update s.errorGyroI axis i1 },
   (cTrunc ((i1 : ℚ) * rateI)) >>> 6)

/-- Embedding of `Stabilize::computePid` (`stabilize.hpp` lines 95-99): subtracts the
rate-damping term `gyroADC[axis]*rateP` from `PTerm` (in float, then
truncated back to `int32_t`), and returns the 32-bit sum
`PTerm + ITerm - DTerm + softwareTrim[axis]` narrowed to `int16_t`. -/
def computePid (s : StabState) (rateP : ℚ) (PTerm ITerm DTerm : Int)
    (gyroADC : Nat → Int) (axis : Nat) : Int :=
  let p : Int := cTrunc ((PTerm : ℚ) - (gyroADC axis : ℚ) * rateP)
  toInt16 (p + ITerm - DTerm + s.pidConfig.softwareTrim axis)

/-- The derivative term of `Stabilize::computeLevelPid` (`stabilize.hpp`
lines 122-127): `delta = gyroADC[axis] - lastGyro[axis]`,
`deltaSum = delta1[axis] + delta2[axis] + delta`,
`DTerm = deltaSum * ratePitchrollD` (float product truncated to
`int32_t`), read against the pre-tick history. -/
def levelDTerm (s : StabState) (gyroADC : Nat → Int) (axis : Nat) : Int :=
  let delta : Int := gyroADC axis - s.lastGyro axis
  let deltaSum : Int := s.delta1 axis + s.delta2 axis + delta
  cTrunc ((deltaSum : ℚ) * s.pidConfig.ratePitchrollD)

/-- Embedding of `Stabilize::computeLevelPid` (`stabilize.hpp` lines 101-130): the
roll/pitch leveling PID.  Returns the new state and the `int16_t`
correction. -/
def computeLevelPid (s : StabState) (rcCommand gyroADC : Nat → Int)
    (eulerAngles : Nat → ℚ) (axis : Nat) : StabState × Int :=
  let r := computeITermGyro s s.pidConfig.ratePitchrollP s.pidConfig.ratePitchrollI
      rcCommand gyroADC axis
  let s1 := r.1
  let ITermGyro := r.2
  let errorAngle : Int := cTrunc
      (((constrain (2 * rcCommand axis) (-(s1.imuConfig.maxAngleInclination))
          s1.imuConfig.maxAngleInclination) : ℚ) - 10 * eulerAngles axis)
  let PTermAccel : Int := cTrunc ((errorAngle : ℚ) * s1.pidConfig.levelP)
  let s2 : StabState := { s1 with
    errorAngleI := Function.update s1.errorAngleI axis
      (constrain (s1.errorAngleI axis + errorAngle) (-10000) 10000) }
  let prop : Int := max |rcCommand DEMAND_PITCH| |rcCommand DEMAND_ROLL|
  let PTerm : Int := Int.tdiv (PTermAccel * (500 - prop) + rcCommand axis * prop) 500
  let ITerm : Int := Int.tdiv (ITermGyro * prop) 500
  let DTerm : Int := levelDTerm s2 gyroADC axis
  let s3 : StabState := { s2 with
    lastGyro := Function.update s2.lastGyro axis (gyroADC axis),
    delta2 := Function.update s2.delta2 axis (s2.delta1 axis),
    delta1 := Function.update s2.delta1 axis (gyroADC axis - s2.lastGyro axis) }
  (s3, computePid s3 s3.pidConfig.ratePitchrollP PTerm ITerm DTerm gyroADC axis)

/-- Embedding of `Stabilize::update` (`stabilize.hpp` lines 132-145): leveling PID on
roll and pitch, rate-only PID on yaw, then the anti-"yaw jump" clamp of
the yaw correction to `±(100 + |yaw stick|)`. -/
def update (s : StabState) (rcCommand gyroADC : Nat → Int)
    (eulerAngles : Nat → ℚ) : StabState :=
  let r0 := computeLevelPid s rcCommand gyroADC eulerAngles AXIS_ROLL
  let sA : StabState := { r0.1 with axisPID := Function.update r0.1.axisPID AXIS_ROLL r0.2 }
  let r1 := computeLevelPid sA rcCommand gyroADC eulerAngles AXIS_PITCH
  let sB : StabState := { r1.1 with axisPID := Function.update r1.1.axisPID AXIS_PITCH r1.2 }
  let r2 := computeITermGyro sB sB.pidConfig.yawP sB.pidConfig.yawI rcCommand gyroADC AXIS_YAW
  let sC := r2.1
  let yaw0 : Int := computePid sC sC.pidConfig.yawP (rcCommand AXIS_YAW) r2.2 0 gyroADC AXIS_YAW
  let yaw1 : Int := constrain yaw0 (-100 - |rcCommand DEMAND_YAW|) (100 + |rcCommand DEMAND_YAW|)
  { sC with axisPID := Function.update sC.axisPID AXIS_YAW yaw1 }

/-- Embedding of `Stabilize::resetIntegral` (`stabilize.hpp` lines 147-154): zeroes
the three rate-integral cells and the two angle-integral cells. -/
def resetIntegral (s : StabState) : StabState :=
  { s with
    errorGyroI := Function.update (Function.update
        (Function.update s.errorGyroI AXIS_ROLL 0) AXIS_PITCH 0) AXIS_YAW 0,
    errorAngleI := Function.update (Function.update s.errorAngleI AXIS_ROLL 0) AXIS_PITCH 0 }

end Stabilize

/-- One row of the quad-X mixing table (`mixer.hpp` lines 46-51). -/
structure MotorMixer where
  throttle : ℚ
  roll : ℚ
  pitch : ℚ
  yaw : ℚ

/-- The quad-X mixing table set up by `Mixer::init` (`mixer.hpp` lines
61-64): rows for right rear, right front, left rear, left front. -/
def mixerQuadX : Nat → MotorMixer
  | 0 => ⟨1, -1, 1, -1⟩
  | 1 => ⟨1, -1, -1, 1⟩
  | 2 => ⟨1, 1, 1, 1⟩
  | 3 => ⟨1, 1, -1, -1⟩
  | _ => ⟨0, 0, 0, 0⟩

namespace Mixer

/-- The raw per-motor mix of `Mixer::update` (`mixer.hpp` lines 80-88):
`throttle*mix.throttle + pitchPID*mix.pitch + rollPID*mix.roll -
yawPID*mix.yaw`, computed in float and cast to `int16_t`. -/
def rawMotor (rcCommand axisPID : Nat → Int) (i : Nat) : Int :=
  toInt16 (cTrunc ((rcCommand DEMAND_THROTTLE : ℚ) * (mixerQuadX i).throttle
    + (axisPID AXIS_PITCH : ℚ) * (mixerQuadX i).pitch
    + (axisPID AXIS_ROLL : ℚ) * (mixerQuadX i).roll
    - (axisPID AXIS_YAW : ℚ) * (mixerQuadX i).yaw))

/-- The running maximum over the four raw motor values (`mixer.hpp`
lines 90-94). -/
def maxMotor (rcCommand axisPID : Nat → Int) : Int :=
  max (max (max (rawMotor rcCommand axisPID 0) (rawMotor rcCommand axisPID 1))
    (rawMotor rcCommand axisPID 2)) (rawMotor rcCommand axisPID 3)

/-- The value `Mixer::update` (`mixer.hpp` lines 76-119) dispatches to
`board->writeMotor(i, ...)` for motor `i`: saturation redistribution,
hard clamp to `[pwmConfig.min, pwmConfig.max]`, the throttle-down
override to `pwmConfig.min`, then the disarm override to
`motorsDisarmed[i]`.  The stores into the `int16_t` array `motors[]`
narrow with `toInt16`. -/
def update (pwm : PwmConfig) (motorsDisarmed rcCommand : Nat → Int)
    (throttleDown : Bool) (axisPID : Nat → Int) (armed : Bool) (i : Nat) : Int :=
  let m0 : Int := rawMotor rcCommand axisPID i
  let mm : Int := maxMotor rcCommand axisPID
  let m1 : Int := if pwm.max < mm then toInt16 (m0 - (mm - pwm.max)) else m0
  let m2 : Int := toInt16 (constrain m1 pwm.min pwm.max)
  let m3 : Int := if throttleDown then toInt16 pwm.min else m2
  if armed then m3 else motorsDisarmed i

end Mixer

/-! ### Helper lemmas -/

theorem toInt16_bounds (x : Int) : -32768 ≤ toInt16 x ∧ toInt16 x ≤ 32767 := by
  unfold toInt16
  omega

theorem toInt16_eq_self {x : Int} (h0 : -32768 ≤ x) (h1 : x ≤ 32767) : toInt16 x = x := by
  unfold toInt16
  omega

theorem constrain_mem {lo hi : Int} (x : Int) (h : lo ≤ hi) :
    lo ≤ constrain x lo hi ∧ constrain x lo hi ≤ hi := by
  unfold constrain
  split <;> [omega; split <;> omega]

theorem constrain_eq_self {x lo hi : Int} (h0 : lo ≤ x) (h1 : x ≤ hi) :
    constrain x lo hi = x := by
  unfold constrain
  omega

theorem abs_constrain_le {c : Int} (x : Int) (hc : 0 ≤ c) :
    |constrain x (-c) c| ≤ c := by
  rcases constrain_mem x (by omega : -c ≤ c) with ⟨h0, h1⟩
  rw [abs_le]
  exact ⟨h0, h1⟩

/-! ### Mixer claims -/

/-- C7: For every call to `Mixer::update` with `armed == false`, each
dispatched motor command equals the corresponding entry of the
externally settable disarmed-motor-value table, independent of
throttle, corrections, saturation, and the throttle-down condition. -/
theorem mixer_disarmed_override (pwm : PwmConfig) (motorsDisarmed rcCommand : Nat → Int)
    (throttleDown : Bool) (axisPID : Nat → Int) (i : Nat) :
    Mixer.update pwm motorsDisarmed rcCommand throttleDown axisPID false i
      = motorsDisarmed i := rfl

/-- C8: For every call to `Mixer::update` with the throttle stick at
minimum and `armed == true`, every dispatched motor command equals
`pwmConfig.min`, for all corrections and throttle demand values
(assuming an `int16_t`-representable configured minimum). -/
theorem mixer_stick_down_min (pwm : PwmConfig) (motorsDisarmed rcCommand axisPID : Nat → Int)
    (i : Nat) (h0 : -32768 ≤ pwm.min) (h1 : pwm.min ≤ 32767) :
    Mixer.update pwm motorsDisarmed rcCommand true axisPID true i = pwm.min := by
  simp only [Mixer.update, if_true]
  exact toInt16_eq_self h0 h1

theorem mixer_stick_down_min_witness :
    Mixer.update ⟨1000, 2000⟩ (fun _ => 0) (fun _ => 1500) true (fun _ => 7) true 2 = 1000 :=
  mixer_stick_down_min ⟨1000, 2000⟩ (fun _ => 0) (fun _ => 1500) (fun _ => 7) 2
    (by decide) (by decide)

/-- C1 counterexample: with `armed == false` and a disarmed-value table
entry of 3000 under `pwmMin = 1000, pwmMax = 2000`, the dispatched
command for motor 0 is 3000, outside `[pwmMin, pwmMax]`.  So the
dispatched values do not lie in `[pwmMin, pwmMax]` for all arm states
and disarmed-table contents. -/
theorem mixer_output_range_cex :
    Mixer.update ⟨1000, 2000⟩ (fun _ => 3000) (fun _ => 0) false (fun _ => 0) false 0 = 3000 ∧
      ¬(Mixer.update ⟨1000, 2000⟩ (fun _ => 3000) (fun _ => 0) false (fun _ => 0) false 0
          ≤ 2000) := by
  constructor
  · rfl
  · decide

/-- C1 (amended): for every call to `Mixer::update` with `armed == true`
and a valid PWM configuration (`-32768 ≤ pwmMin ≤ pwmMax ≤ 32767`),
each dispatched motor command lies in `[pwmMin, pwmMax]`, for all stick
demands, corrections, and disarmed-value table contents. -/
theorem mixer_output_range_armed (pwm : PwmConfig) (motorsDisarmed rcCommand axisPID : Nat → Int)
    (throttleDown : Bool) (i : Nat)
    (h0 : -32768 ≤ pwm.min) (h1 : pwm.min ≤ pwm.max) (h2 : pwm.max ≤ 32767) :
    pwm.min ≤ Mixer.update pwm motorsDisarmed rcCommand throttleDown axisPID true i ∧
      Mixer.update pwm motorsDisarmed rcCommand throttleDown axisPID true i ≤ pwm.max := by
  unfold Mixer.update
  simp only [if_true]
  rcases throttleDown with _ | _
  · simp only [Bool.false_eq_true, if_false]
    rcases constrain_mem (x :=
      if pwm.max < Mixer.maxMotor rcCommand axisPID then
        toInt16 (Mixer.rawMotor rcCommand axisPID i - (Mixer.maxMotor rcCommand axisPID - pwm.max))
      else Mixer.rawMotor rcCommand axisPID i) h1 with ⟨hl, hr⟩
    rw [toInt16_eq_self (by omega) (by omega)]
    exact ⟨hl, hr⟩
  · simp only [if_true]
    rw [toInt16_eq_self h0 (by omega)]
    omega

theorem mixer_output_range_armed_witness :
    1000 ≤ Mixer.update ⟨1000, 2000⟩ (fun _ => 0) (fun _ => 1500) false (fun _ => 0) true 1 ∧
      Mixer.update ⟨1000, 2000⟩ (fun _ => 0) (fun _ => 1500) false (fun _ => 0) true 1 ≤ 2000 :=
  mixer_output_range_armed ⟨1000, 2000⟩ (fun _ => 0) (fun _ => 1500) (fun _ => 0) false 1
    (by decide) (by decide) (by decide)

/-! ### State-effect lemmas for the stabilizer -/

theorem cg_fields (s : StabState) (P I : ℚ) (rc g : Nat → Int) (ax : Nat) :
    (Stabilize.computeITermGyro s P I rc g ax).1.axisPID = s.axisPID ∧
    (Stabilize.computeITermGyro s P I rc g ax).1.lastGyro = s.lastGyro ∧
    (Stabilize.computeITermGyro s P I rc g ax).1.delta1 = s.delta1 ∧
    (Stabilize.computeITermGyro s P I rc g ax).1.delta2 = s.delta2 ∧
    (Stabilize.computeITermGyro s P I rc g ax).1.errorAngleI = s.errorAngleI ∧
    (Stabilize.computeITermGyro s P I rc g ax).1.imuConfig = s.imuConfig ∧
    (Stabilize.computeITermGyro s P I rc g ax).1.pidConfig = s.pidConfig := by
  unfold Stabilize.computeITermGyro
  exact ⟨rfl, rfl, rfl, rfl, rfl, rfl, rfl⟩

theorem cg_errorGyroI_self_bound (s : StabState) (P I : ℚ) (rc g : Nat → Int) (ax : Nat) :
    |(Stabilize.computeITermGyro s P I rc g ax).1.errorGyroI ax| ≤ 16000 := by
  dsimp only [Stabilize.computeITermGyro]
  rw [Function.update_same]
  split
  · simp
  · exact abs_constrain_le (c := 16000) _ (by norm_num)

theorem cg_errorGyroI_other (s : StabState) (P I : ℚ) (rc g : Nat → Int) {ax ax' : Nat}
    (h : ax' ≠ ax) :
    (Stabilize.computeITermGyro s P I rc g ax).1.errorGyroI ax' = s.errorGyroI ax' := by
  dsimp only [Stabilize.computeITermGyro]
  rw [Function.update_noteq h]

theorem cg_errorGyroI_zero (s : StabState) (P I : ℚ) (rc g : Nat → Int) (ax : Nat)
    (h : 640 < |g ax| ∨ (ax = AXIS_YAW ∧ 100 < |rc ax|)) :
    (Stabilize.computeITermGyro s P I rc g ax).1.errorGyroI ax = 0 := by
  dsimp only [Stabilize.computeITermGyro]
  rw [Function.update_same, if_pos h]

theorem clp_errorGyroI_self_bound (s : StabState) (rc g : Nat → Int) (e : Nat → ℚ) (ax : Nat) :
    |(Stabilize.computeLevelPid s rc g e ax).1.errorGyroI ax| ≤ 16000 := by
  dsimp only [Stabilize.computeLevelPid]
  exact cg_errorGyroI_self_bound s _ _ rc g ax

theorem clp_errorGyroI_other (s : StabState) (rc g : Nat → Int) (e : Nat → ℚ) {ax ax' : Nat}
    (h : ax' ≠ ax) :
    (Stabilize.computeLevelPid s rc g e ax).1.errorGyroI ax' = s.errorGyroI ax' := by
  dsimp only [Stabilize.computeLevelPid]
  exact cg_errorGyroI_other s _ _ rc g h

theorem clp_errorGyroI_zero (s : StabState) (rc g : Nat → Int) (e : Nat → ℚ) (ax : Nat)
    (h : 640 < |g ax| ∨ (ax = AXIS_YAW ∧ 100 < |rc ax|)) :
    (Stabilize.computeLevelPid s rc g e ax).1.errorGyroI ax = 0 := by
  dsimp only [Stabilize.computeLevelPid]
  exact cg_errorGyroI_zero s _ _ rc g ax h

theorem clp_errorAngleI_self_bound (s : StabState) (rc g : Nat → Int) (e : Nat → ℚ) (ax : Nat) :
    |(Stabilize.computeLevelPid s rc g e ax).1.errorAngleI ax| ≤ 10000 := by
  dsimp only [Stabilize.computeLevelPid]
  rw [Function.update_same]
  exact abs_constrain_le (c := 10000) _ (by norm_num)

theorem clp_errorAngleI_other (s : StabState) (rc g : Nat → Int) (e : Nat → ℚ) {ax ax' : Nat}
    (h : ax' ≠ ax) :
    (Stabilize.computeLevelPid s rc g e ax).1.errorAngleI ax' = s.errorAngleI ax' := by
  dsimp only [Stabilize.computeLevelPid]
  rw [Function.update_noteq h, (cg_fields s _ _ rc g ax).2.2.2.2.1]

/-! ### Stabilizer claims -/

/-- C2: after every call to `Stabilize::update`, the rate-integral
accumulator of each of the three axes satisfies `|errorGyroI| ≤ 16000`,
and the angle-integral accumulator of roll and pitch satisfies
`|errorAngleI| ≤ 10000`, for all inputs and all prior state. -/
theorem stab_integral_bounds (s : StabState) (rc g : Nat → Int) (e : Nat → ℚ) :
    |(Stabilize.update s rc g e).errorGyroI AXIS_ROLL| ≤ 16000 ∧
    |(Stabilize.update s rc g e).errorGyroI AXIS_PITCH| ≤ 16000 ∧
    |(Stabilize.update s rc g e).errorGyroI AXIS_YAW| ≤ 16000 ∧
    |(Stabilize.update s rc g e).errorAngleI AXIS_ROLL| ≤ 10000 ∧
    |(Stabilize.update s rc g e).errorAngleI AXIS_PITCH| ≤ 10000 := by
  dsimp only [Stabilize.update]
  refine ⟨?_, ?_, ?_, ?_, ?_⟩
  · rw [cg_errorGyroI_other _ _ _ _ _ (by decide : AXIS_ROLL ≠ AXIS_YAW)]
    dsimp only
    rw [clp_errorGyroI_other _ _ _ _ (by decide : AXIS_ROLL ≠ AXIS_PITCH)]
    dsimp only
    exact clp_errorGyroI_self_bound s rc g e AXIS_ROLL
  · rw [cg_errorGyroI_other _ _ _ _ _ (by decide : AXIS_PITCH ≠ AXIS_YAW)]
    dsimp only
    exact clp_errorGyroI_self_bound _ rc g e AXIS_PITCH
  · exact cg_errorGyroI_self_bound _ _ _ rc g AXIS_YAW
  · rw [(cg_fields _ _ _ rc g AXIS_YAW).2.2.2.2.1]
    dsimp only
    rw [clp_errorAngleI_other _ _ _ _ (by decide : AXIS_ROLL ≠ AXIS_PITCH)]
    dsimp only
    exact clp_errorAngleI_self_bound s rc g e AXIS_ROLL
  · rw [(cg_fields _ _ _ rc g AXIS_YAW).2.2.2.2.1]
    dsimp only
    exact clp_errorAngleI_self_bound _ rc g e AXIS_PITCH

/-- C3: for every tick of `Stabilize::update`, if the measured rate
magnitude on roll or pitch exceeds 640, that axis's rate integral is
exactly 0 after the tick; and if the measured yaw rate magnitude
exceeds 640 or the yaw stick-demand magnitude exceeds 100, the yaw rate
integral is exactly 0 after the tick. -/
theorem stab_integral_zeroing (s : StabState) (rc g : Nat → Int) (e : Nat → ℚ) :
    (640 < |g AXIS_ROLL| → (Stabilize.update s rc g e).errorGyroI AXIS_ROLL = 0) ∧
    (640 < |g AXIS_PITCH| → (Stabilize.update s rc g e).errorGyroI AXIS_PITCH = 0) ∧
    (640 < |g AXIS_YAW| ∨ 100 < |rc AXIS_YAW| →
      (Stabilize.update s rc g e).errorGyroI AXIS_YAW = 0) := by
  dsimp only [Stabilize.update]
  refine ⟨fun h => ?_, fun h => ?_, fun h => ?_⟩
  · rw [cg_errorGyroI_other _ _ _ _ _ (by decide : AXIS_ROLL ≠ AXIS_YAW)]
    dsimp only
    rw [clp_errorGyroI_other _ _ _ _ (by decide : AXIS_ROLL ≠ AXIS_PITCH)]
    dsimp only
    exact clp_errorGyroI_zero s rc g e AXIS_ROLL (Or.inl h)
  · rw [cg_errorGyroI_other _ _ _ _ _ (by decide : AXIS_PITCH ≠ AXIS_YAW)]
    dsimp only
    exact clp_errorGyroI_zero _ rc g e AXIS_PITCH (Or.inl h)
  · refine cg_errorGyroI_zero _ _ _ rc g AXIS_YAW ?_
    rcases h with h | h
    · exact Or.inl h
    · exact Or.inr ⟨rfl, h⟩

theorem stab_integral_zeroing_witness :
    (Stabilize.update
        ⟨fun _ => 0, fun _ => 0, fun _ => 0, fun _ => 0, fun _ => 9000, fun _ => 0,
          ⟨0⟩, ⟨0, 0, 0, 0, 0, 0, fun _ => 0⟩⟩
        (fun _ => 200) (fun _ => 700) (fun _ => 0)).errorGyroI AXIS_ROLL = 0 ∧
    (Stabilize.update
        ⟨fun _ => 0, fun _ => 0, fun _ => 0, fun _ => 0, fun _ => 9000, fun _ => 0,
          ⟨0⟩, ⟨0, 0, 0, 0, 0, 0, fun _ => 0⟩⟩
        (fun _ => 200) (fun _ => 700) (fun _ => 0)).errorGyroI AXIS_PITCH = 0 ∧
    (Stabilize.update
        ⟨fun _ => 0, fun _ => 0, fun _ => 0, fun _ => 0, fun _ => 9000, fun _ => 0,
          ⟨0⟩, ⟨0, 0, 0, 0, 0, 0, fun _ => 0⟩⟩
        (fun _ => 200) (fun _ => 700) (fun _ => 0)).errorGyroI AXIS_YAW = 0 := by
  refine ⟨(stab_integral_zeroing _ _ _ _).1 (by decide),
    (stab_integral_zeroing _ _ _ _).2.1 (by decide),
    (stab_integral_zeroing _ _ _ _).2.2 (Or.inl (by decide))⟩

/-- C5 counterexample: starting from a state whose five integral cells
(rate integrals for roll, pitch, yaw and angle integrals for roll,
pitch) are all 1, `Stabilize::resetIntegral` changes all five of them
(to 0).  Hence it does not zero merely *four* integral accumulators
while leaving every other state component unchanged: whichever four
cells are designated as "the four accumulators", a fifth component
also changes. -/
theorem resetIntegral_frame_cex :
    (Stabilize.resetIntegral
        ⟨fun _ => 0, fun _ => 0, fun _ => 0, fun _ => 0, fun _ => 1, fun _ => 1,
          ⟨0⟩, ⟨0, 0, 0, 0, 0, 0, fun _ => 0⟩⟩).errorGyroI AXIS_ROLL ≠ 1 ∧
    (Stabilize.resetIntegral
        ⟨fun _ => 0, fun _ => 0, fun _ => 0, fun _ => 0, fun _ => 1, fun _ => 1,
          ⟨0⟩, ⟨0, 0, 0, 0, 0, 0, fun _ => 0⟩⟩).errorGyroI AXIS_PITCH ≠ 1 ∧
    (Stabilize.resetIntegral
        ⟨fun _ => 0, fun _ => 0, fun _ => 0, fun _ => 0, fun _ => 1, fun _ => 1,
          ⟨0⟩, ⟨0, 0, 0, 0, 0, 0, fun _ => 0⟩⟩).errorGyroI AXIS_YAW ≠ 1 ∧
    (Stabilize.resetIntegral
        ⟨fun _ => 0, fun _ => 0, fun _ => 0, fun _ => 0, fun _ => 1, fun _ => 1,
          ⟨0⟩, ⟨0, 0, 0, 0, 0, 0, fun _ => 0⟩⟩).errorAngleI AXIS_ROLL ≠ 1 ∧
    (Stabilize.resetIntegral
        ⟨fun _ => 0, fun _ => 0, fun _ => 0, fun _ => 0, fun _ => 1, fun _ => 1,
          ⟨0⟩, ⟨0, 0, 0, 0, 0, 0, fun _ => 0⟩⟩).errorAngleI AXIS_PITCH ≠ 1 := by
  refine ⟨?_, ?_, ?_, ?_, ?_⟩ <;> decide

/-- C5 (amended): `Stabilize::resetIntegral` zeroes all **five**
integral accumulator cells (rate integrals of roll, pitch and yaw, and
angle integrals of roll and pitch) and leaves every other component of
the stabilizer state (`lastGyro`, `delta1`, `delta2`, `axisPID`, and
the configuration snapshots) unchanged, from every starting state. -/
theorem resetIntegral_frame (s : StabState) :
    (Stabilize.resetIntegral s).errorGyroI AXIS_ROLL = 0 ∧
    (Stabilize.resetIntegral s).errorGyroI AXIS_PITCH = 0 ∧
    (Stabilize.resetIntegral s).errorGyroI AXIS_YAW = 0 ∧
    (Stabilize.resetIntegral s).errorAngleI AXIS_ROLL = 0 ∧
    (Stabilize.resetIntegral s).errorAngleI AXIS_PITCH = 0 ∧
    (Stabilize.resetIntegral s).axisPID = s.axisPID ∧
    (Stabilize.resetIntegral s).lastGyro = s.lastGyro ∧
    (Stabilize.resetIntegral s).delta1 = s.delta1 ∧
    (Stabilize.resetIntegral s).delta2 = s.delta2 ∧
    (Stabilize.resetIntegral s).imuConfig = s.imuConfig ∧
    (Stabilize.resetIntegral s).pidConfig = s.pidConfig := by
  dsimp only [Stabilize.resetIntegral]
  refine ⟨?_, ?_, ?_, ?_, ?_, rfl, rfl, rfl, rfl, rfl, rfl⟩
  · rw [Function.update_noteq (by decide), Function.update_noteq (by decide),
      Function.update_same]
  · rw [Function.update_noteq (by decide), Function.update_same]
  · rw [Function.update_same]
  · rw [Function.update_noteq (by decide), Function.update_same]
  · rw [Function.update_same]

theorem toInt16_modeq (x : Int) : Int.ModEq 65536 (toInt16 x) x := by
  unfold Int.ModEq toInt16
  omega

/-- C9: for each roll/pitch axis on every tick, the derivative term
equals `(delta1 + delta2 + (currentGyro - lastGyro)) * ratePitchrollD`
(the sum of the three most recent per-tick gyro deltas scaled by the
rate-D gain, the float product truncated to `int32_t`); and after the
tick `delta1` and `delta2` hold the two most recent deltas and
`lastGyro` holds the current gyro sample. -/
theorem level_dterm_moving_sum (s : StabState) (rc g : Nat → Int) (e : Nat → ℚ) (ax : Nat) :
    Stabilize.levelDTerm s g ax =
      cTrunc ((((s.delta1 ax + s.delta2 ax + (g ax - s.lastGyro ax) : Int)) : ℚ)
        * s.pidConfig.ratePitchrollD) ∧
    (Stabilize.computeLevelPid s rc g e ax).1.delta1 ax = g ax - s.lastGyro ax ∧
    (Stabilize.computeLevelPid s rc g e ax).1.delta2 ax = s.delta1 ax ∧
    (Stabilize.computeLevelPid s rc g e ax).1.lastGyro ax = g ax := by
  refine ⟨rfl, ?_, ?_, ?_⟩
  · dsimp only [Stabilize.computeLevelPid]
    rw [Function.update_same, (cg_fields s _ _ rc g ax).2.1]
  · dsimp only [Stabilize.computeLevelPid]
    rw [Function.update_same, (cg_fields s _ _ rc g ax).2.2.1]
  · dsimp only [Stabilize.computeLevelPid]
    rw [Function.update_same]

/-- C10: the per-axis correction returned by `Stabilize::computePid` is
the 32-bit sum `(PTerm - gyro*rateP) + ITerm - DTerm + softwareTrim`
narrowed to a signed 16-bit integer by reduction modulo 2^16 into
`[-32768, 32767]` (wrap-around): whenever the sum lies outside that
interval the returned value is congruent to the sum mod 2^16 but not
equal to it (in particular it is not clamped).  The same narrowing
applies to each raw motor mix cast to `int16_t` in `Mixer::update`. -/
theorem int16_narrowing_wrap (s : StabState) (rateP : ℚ) (PTerm ITerm DTerm : Int)
    (g : Nat → Int) (ax : Nat) (rc ap : Nat → Int) (i : Nat)
    (hS : cTrunc ((PTerm : ℚ) - (g ax : ℚ) * rateP) + ITerm - DTerm
            + s.pidConfig.softwareTrim ax < -32768 ∨
          32767 < cTrunc ((PTerm : ℚ) - (g ax : ℚ) * rateP) + ITerm - DTerm
            + s.pidConfig.softwareTrim ax) :
    Int.ModEq 65536 (Stabilize.computePid s rateP PTerm ITerm DTerm g ax)
        (cTrunc ((PTerm : ℚ) - (g ax : ℚ) * rateP) + ITerm - DTerm
          + s.pidConfig.softwareTrim ax) ∧
    -32768 ≤ Stabilize.computePid s rateP PTerm ITerm DTerm g ax ∧
    Stabilize.computePid s rateP PTerm ITerm DTerm g ax ≤ 32767 ∧
    Stabilize.computePid s rateP PTerm ITerm DTerm g ax ≠
        cTrunc ((PTerm : ℚ) - (g ax : ℚ) * rateP) + ITerm - DTerm
          + s.pidConfig.softwareTrim ax ∧
    Int.ModEq 65536 (Mixer.rawMotor rc ap i)
        (cTrunc ((rc DEMAND_THROTTLE : ℚ) * (mixerQuadX i).throttle
          + (ap AXIS_PITCH : ℚ) * (mixerQuadX i).pitch
          + (ap AXIS_ROLL : ℚ) * (mixerQuadX i).roll
          - (ap AXIS_YAW : ℚ) * (mixerQuadX i).yaw)) ∧
    -32768 ≤ Mixer.rawMotor rc ap i ∧ Mixer.rawMotor rc ap i ≤ 32767 := by
  have hb := toInt16_bounds (cTrunc ((PTerm : ℚ) - (g ax : ℚ) * rateP) + ITerm - DTerm
    + s.pidConfig.softwareTrim ax)
  have hb2 := toInt16_bounds (cTrunc ((rc DEMAND_THROTTLE : ℚ) * (mixerQuadX i).throttle
    + (ap AXIS_PITCH : ℚ) * (mixerQuadX i).pitch
    + (ap AXIS_ROLL : ℚ) * (mixerQuadX i).roll
    - (ap AXIS_YAW : ℚ) * (mixerQuadX i).yaw))
  dsimp only [Stabilize.computePid, Mixer.rawMotor]
  exact ⟨toInt16_modeq _, hb.1, hb.2, by omega, toInt16_modeq _, hb2.1, hb2.2⟩

theorem int16_narrowing_wrap_witness :
    Int.ModEq 65536
        (Stabilize.computePid
          ⟨fun _ => 0, fun _ => 0, fun _ => 0, fun _ => 0, fun _ => 0, fun _ => 0,
            ⟨0⟩, ⟨0, 0, 0, 0, 0, 0, fun _ => 0⟩⟩ 0 40000 0 0 (fun _ => 0) 0)
        (cTrunc (((40000 : Int) : ℚ) - (((fun _ => 0 : Nat → Int) 0 : Int) : ℚ) * 0) + 0 - 0
          + (⟨fun _ => 0, fun _ => 0, fun _ => 0, fun _ => 0, fun _ => 0, fun _ => 0,
              ⟨0⟩, ⟨0, 0, 0, 0, 0, 0, fun _ => 0⟩⟩ : StabState).pidConfig.softwareTrim 0) ∧
    -32768 ≤ Stabilize.computePid
        ⟨fun _ => 0, fun _ => 0, fun _ => 0, fun _ => 0, fun _ => 0, fun _ => 0,
          ⟨0⟩, ⟨0, 0, 0, 0, 0, 0, fun _ => 0⟩⟩ 0 40000 0 0 (fun _ => 0) 0 ∧
    Stabilize.computePid
        ⟨fun _ => 0, fun _ => 0, fun _ => 0, fun _ => 0, fun _ => 0, fun _ => 0,
          ⟨0⟩, ⟨0, 0, 0, 0, 0, 0, fun _ => 0⟩⟩ 0 40000 0 0 (fun _ => 0) 0 ≤ 32767 ∧
    Stabilize.computePid
        ⟨fun _ => 0, fun _ => 0, fun _ => 0, fun _ => 0, fun _ => 0, fun _ => 0,
          ⟨0⟩, ⟨0, 0, 0, 0, 0, 0, fun _ => 0⟩⟩ 0 40000 0 0 (fun _ => 0) 0 ≠
        cTrunc (((40000 : Int) : ℚ) - (((fun _ => 0 : Nat → Int) 0 : Int) : ℚ) * 0) + 0 - 0
          + (⟨fun _ => 0, fun _ => 0, fun _ => 0, fun _ => 0, fun _ => 0, fun _ => 0,
              ⟨0⟩, ⟨0, 0, 0, 0, 0, 0, fun _ => 0⟩⟩ : StabState).pidConfig.softwareTrim 0 ∧
    Int.ModEq 65536 (Mixer.rawMotor (fun _ => 0) (fun _ => 0) 0)
        (cTrunc ((((fun _ => 0 : Nat → Int) DEMAND_THROTTLE : Int) : ℚ) * (mixerQuadX 0).throttle
          + (((fun _ => 0 : Nat → Int) AXIS_PITCH : Int) : ℚ) * (mixerQuadX 0).pitch
          + (((fun _ => 0 : Nat → Int) AXIS_ROLL : Int) : ℚ) * (mixerQuadX 0).roll
          - (((fun _ => 0 : Nat → Int) AXIS_YAW : Int) : ℚ) * (mixerQuadX 0).yaw)) ∧
    -32768 ≤ Mixer.rawMotor (fun _ => 0) (fun _ => 0) 0 ∧
    Mixer.rawMotor (fun _ => 0) (fun _ => 0) 0 ≤ 32767 := by
  refine int16_narrowing_wrap _ 0 40000 0 0 (fun _ => 0) 0 (fun _ => 0) (fun _ => 0) 0 ?_
  refine Or.inr ?_
  norm_num [cTrunc]

theorem rawMotor_bounds (rc ap : Nat → Int) (k : Nat) :
    -32768 ≤ Mixer.rawMotor rc ap k ∧ Mixer.rawMotor rc ap k ≤ 32767 :=
  toInt16_bounds _

theorem maxMotor_le (rc ap : Nat → Int) : Mixer.maxMotor rc ap ≤ 32767 :=
  max_le (max_le (max_le (rawMotor_bounds rc ap 0).2 (rawMotor_bounds rc ap 1).2)
    (rawMotor_bounds rc ap 2).2) (rawMotor_bounds rc ap 3).2

/-- If an `int16_t` motor value has the overshoot `M - c` subtracted
(with two's-complement wrap on the store), the result is either exact
or lands strictly above `c`, so a wrapped value always hits the upper
hard clamp. -/
theorem toInt16_sub_overshoot (a M c : Int) (ha0 : -32768 ≤ a) (ha1 : a ≤ 32767)
    (hM : M ≤ 32767) (hc : c < M) :
    toInt16 (a - (M - c)) = a - (M - c) ∨ c < toInt16 (a - (M - c)) := by
  unfold toInt16
  omega

/-- C6: in `Mixer::update`, if the maximum raw mix value across the four
motors exceeds `pwmMax`, the overshoot `max - pwmMax` is subtracted from
every motor's value before clamping; consequently, when neither of two
motors additionally hits the hard clamp (their redistributed values lie
in `[pwmMin, pwmMax]`) and the throttle-down and disarm overrides do
not apply, the difference between the two motors' final dispatched
values equals the difference between their raw pre-redistribution
values. -/
theorem mixer_saturation_diffs (pwm : PwmConfig) (md rc ap : Nat → Int) (i j : Nat)
    (hsat : pwm.max < Mixer.maxMotor rc ap)
    (hiL : pwm.min ≤ toInt16 (Mixer.rawMotor rc ap i - (Mixer.maxMotor rc ap - pwm.max)))
    (hiR : toInt16 (Mixer.rawMotor rc ap i - (Mixer.maxMotor rc ap - pwm.max)) ≤ pwm.max)
    (hjL : pwm.min ≤ toInt16 (Mixer.rawMotor rc ap j - (Mixer.maxMotor rc ap - pwm.max)))
    (hjR : toInt16 (Mixer.rawMotor rc ap j - (Mixer.maxMotor rc ap - pwm.max)) ≤ pwm.max) :
    Mixer.update pwm md rc false ap true i - Mixer.update pwm md rc false ap true j
      = Mixer.rawMotor rc ap i - Mixer.rawMotor rc ap j := by
  have hupd : ∀ k, pwm.min ≤ toInt16 (Mixer.rawMotor rc ap k - (Mixer.maxMotor rc ap - pwm.max)) →
      toInt16 (Mixer.rawMotor rc ap k - (Mixer.maxMotor rc ap - pwm.max)) ≤ pwm.max →
      Mixer.update pwm md rc false ap true k
        = toInt16 (Mixer.rawMotor rc ap k - (Mixer.maxMotor rc ap - pwm.max)) := by
    intro k hL hR
    simp only [Mixer.update, if_true, Bool.false_eq_true, if_false, if_pos hsat]
    rw [constrain_eq_self hL hR,
      toInt16_eq_self (toInt16_bounds _).1 (toInt16_bounds _).2]
  have hexact : ∀ k, toInt16 (Mixer.rawMotor rc ap k - (Mixer.maxMotor rc ap - pwm.max)) ≤ pwm.max →
      toInt16 (Mixer.rawMotor rc ap k - (Mixer.maxMotor rc ap - pwm.max))
        = Mixer.rawMotor rc ap k - (Mixer.maxMotor rc ap - pwm.max) := by
    intro k hR
    rcases toInt16_sub_overshoot (Mixer.rawMotor rc ap k) (Mixer.maxMotor rc ap) pwm.max
        (rawMotor_bounds rc ap k).1 (rawMotor_bounds rc ap k).2 (maxMotor_le rc ap) hsat
        with h | h
    · exact h
    · omega
  rw [hupd i hiL hiR, hupd j hjL hjR, hexact i hiR, hexact j hjR]
  ring

theorem mixer_saturation_diffs_witness :
    Mixer.update ⟨1000, 2000⟩ (fun _ => 0) (fun _ => 2200) false (fun _ => 0) true 0
        - Mixer.update ⟨1000, 2000⟩ (fun _ => 0) (fun _ => 2200) false (fun _ => 0) true 1
      = Mixer.rawMotor (fun _ => 2200) (fun _ => 0) 0
        - Mixer.rawMotor (fun _ => 2200) (fun _ => 0) 1 := by
  refine mixer_saturation_diffs ⟨1000, 2000⟩ (fun _ => 0) (fun _ => 2200) (fun _ => 0)
    0 1 ?_ ?_ ?_ ?_ ?_
  all_goals norm_num [Mixer.maxMotor, Mixer.rawMotor, mixerQuadX, cTrunc, toInt16]

theorem cTrunc_zero : cTrunc 0 = 0 := by norm_num [cTrunc]

theorem computePid_zero (s : StabState) (P : ℚ) (ax : Nat)
    (ht : s.pidConfig.softwareTrim ax = 0) :
    Stabilize.computePid s P 0 0 0 (fun _ => 0) ax = 0 := by
  dsimp only [Stabilize.computePid]
  simp only [Int.cast_zero, zero_mul, sub_zero, cTrunc_zero, ht, add_zero, zero_add]
  decide

theorem cg_zero_eval (s : StabState) (P I : ℚ) (ax : Nat) (h : s.errorGyroI ax = 0) :
    (Stabilize.computeITermGyro s P I (fun _ => 0) (fun _ => 0) ax).1.errorGyroI ax = 0 ∧
    (Stabilize.computeITermGyro s P I (fun _ => 0) (fun _ => 0) ax).2 = 0 := by
  dsimp only [Stabilize.computeITermGyro]
  constructor
  · rw [Function.update_same]
    simp only [Int.cast_zero, zero_mul, sub_zero, cTrunc_zero, h, add_zero,
      show constrain 0 (-16000) 16000 = 0 from by decide, ite_self]
  · simp only [Int.cast_zero, zero_mul, sub_zero, cTrunc_zero, h, add_zero,
      show constrain 0 (-16000) 16000 = 0 from by decide, ite_self,
      show ((0 : Int) >>> 6 : Int) = 0 from by decide]

theorem clp_fields (s : StabState) (rc g : Nat → Int) (e : Nat → ℚ) (ax : Nat) :
    (Stabilize.computeLevelPid s rc g e ax).1.axisPID = s.axisPID ∧
    (Stabilize.computeLevelPid s rc g e ax).1.pidConfig = s.pidConfig ∧
    (Stabilize.computeLevelPid s rc g e ax).1.imuConfig = s.imuConfig := by
  dsimp only [Stabilize.computeLevelPid]
  exact ⟨(cg_fields s _ _ rc g ax).1, (cg_fields s _ _ rc g ax).2.2.2.2.2.2,
    (cg_fields s _ _ rc g ax).2.2.2.2.2.1⟩

theorem clp_lastGyro_other (s : StabState) (rc g : Nat → Int) (e : Nat → ℚ) {ax ax' : Nat}
    (h : ax' ≠ ax) :
    (Stabilize.computeLevelPid s rc g e ax).1.lastGyro ax' = s.lastGyro ax' := by
  dsimp only [Stabilize.computeLevelPid]
  rw [Function.update_noteq h, (cg_fields s _ _ rc g ax).2.1]

theorem clp_delta1_other (s : StabState) (rc g : Nat → Int) (e : Nat → ℚ) {ax ax' : Nat}
    (h : ax' ≠ ax) :
    (Stabilize.computeLevelPid s rc g e ax).1.delta1 ax' = s.delta1 ax' := by
  dsimp only [Stabilize.computeLevelPid]
  rw [Function.update_noteq h, (cg_fields s _ _ rc g ax).2.2.1]

theorem clp_delta2_other (s : StabState) (rc g : Nat → Int) (e : Nat → ℚ) {ax ax' : Nat}
    (h : ax' ≠ ax) :
    (Stabilize.computeLevelPid s rc g e ax).1.delta2 ax' = s.delta2 ax' := by
  dsimp only [Stabilize.computeLevelPid]
  rw [Function.update_noteq h, (cg_fields s _ _ rc g ax).2.2.2.1]

theorem clp_zero_eval (s : StabState) (ax : Nat) (hg : s.errorGyroI ax = 0)
    (hlg : s.lastGyro ax = 0) (hd1 : s.delta1 ax = 0) (hd2 : s.delta2 ax = 0)
    (ht : s.pidConfig.softwareTrim ax = 0) (hincl : 0 ≤ s.imuConfig.maxAngleInclination) :
    (Stabilize.computeLevelPid s (fun _ => 0) (fun _ => 0) (fun _ => 0) ax).2 = 0 := by
  have hca : constrain 0 (-(s.imuConfig.maxAngleInclination)) s.imuConfig.maxAngleInclination
      = 0 := constrain_eq_self (by omega) hincl
  dsimp only [Stabilize.computeLevelPid, Stabilize.levelDTerm]
  rw [(cg_zero_eval s _ _ ax hg).2]
  simp only [(cg_fields s s.pidConfig.ratePitchrollP s.pidConfig.ratePitchrollI
      (fun _ => 0) (fun _ => 0) ax).2.1,
    (cg_fields s s.pidConfig.ratePitchrollP s.pidConfig.ratePitchrollI
      (fun _ => 0) (fun _ => 0) ax).2.2.1,
    (cg_fields s s.pidConfig.ratePitchrollP s.pidConfig.ratePitchrollI
      (fun _ => 0) (fun _ => 0) ax).2.2.2.1,
    (cg_fields s s.pidConfig.ratePitchrollP s.pidConfig.ratePitchrollI
      (fun _ => 0) (fun _ => 0) ax).2.2.2.2.2.1,
    (cg_fields s s.pidConfig.ratePitchrollP s.pidConfig.ratePitchrollI
      (fun _ => 0) (fun _ => 0) ax).2.2.2.2.2.2,
    hlg, hd1, hd2, mul_zero, zero_mul, add_zero, zero_add, sub_zero, Int.cast_zero,
    cTrunc_zero, abs_zero, max_self, hca,
    show Int.tdiv 0 500 = 0 from by decide]
  exact computePid_zero _ _ ax ht

theorem yaw_zero_eval (sB : StabState) (hg2 : sB.errorGyroI AXIS_YAW = 0)
    (ht2 : sB.pidConfig.softwareTrim AXIS_YAW = 0) :
    constrain
      (Stabilize.computePid
        (Stabilize.computeITermGyro sB sB.pidConfig.yawP sB.pidConfig.yawI
          (fun _ => 0) (fun _ => 0) AXIS_YAW).1
        (Stabilize.computeITermGyro sB sB.pidConfig.yawP sB.pidConfig.yawI
          (fun _ => 0) (fun _ => 0) AXIS_YAW).1.pidConfig.yawP
        0
        (Stabilize.computeITermGyro sB sB.pidConfig.yawP sB.pidConfig.yawI
          (fun _ => 0) (fun _ => 0) AXIS_YAW).2
        0 (fun _ => 0) AXIS_YAW)
      (-100 - |(0 : Int)|) (100 + |(0 : Int)|) = 0 := by
  have htc : (Stabilize.computeITermGyro sB sB.pidConfig.yawP sB.pidConfig.yawI
      (fun _ => 0) (fun _ => 0) AXIS_YAW).1.pidConfig.softwareTrim AXIS_YAW = 0 := by
    rw [(cg_fields sB _ _ _ _ AXIS_YAW).2.2.2.2.2.2]
    exact ht2
  rw [(cg_zero_eval sB _ _ AXIS_YAW hg2).2, computePid_zero _ _ AXIS_YAW htc]
  decide

theorem update_zero_eval (s0 : StabState)
    (hg0 : s0.errorGyroI AXIS_ROLL = 0) (hg1 : s0.errorGyroI AXIS_PITCH = 0)
    (hg2 : s0.errorGyroI AXIS_YAW = 0)
    (hlg0 : s0.lastGyro AXIS_ROLL = 0) (hlg1 : s0.lastGyro AXIS_PITCH = 0)
    (hd10 : s0.delta1 AXIS_ROLL = 0) (hd11 : s0.delta1 AXIS_PITCH = 0)
    (hd20 : s0.delta2 AXIS_ROLL = 0) (hd21 : s0.delta2 AXIS_PITCH = 0)
    (ht0 : s0.pidConfig.softwareTrim AXIS_ROLL = 0)
    (ht1 : s0.pidConfig.softwareTrim AXIS_PITCH = 0)
    (ht2 : s0.pidConfig.softwareTrim AXIS_YAW = 0)
    (hincl : 0 ≤ s0.imuConfig.maxAngleInclination) :
    (Stabilize.update s0 (fun _ => 0) (fun _ => 0) (fun _ => 0)).axisPID AXIS_ROLL = 0 ∧
    (Stabilize.update s0 (fun _ => 0) (fun _ => 0) (fun _ => 0)).axisPID AXIS_PITCH = 0 ∧
    (Stabilize.update s0 (fun _ => 0) (fun _ => 0) (fun _ => 0)).axisPID AXIS_YAW = 0 := by
  dsimp only [Stabilize.update]
  refine ⟨?_, ?_, ?_⟩
  · rw [Function.update_noteq (by decide : AXIS_ROLL ≠ AXIS_YAW),
      (cg_fields _ _ _ _ _ AXIS_YAW).1]
    dsimp only
    rw [Function.update_noteq (by decide : AXIS_ROLL ≠ AXIS_PITCH),
      (clp_fields _ _ _ _ AXIS_PITCH).1]
    dsimp only
    rw [Function.update_same]
    exact clp_zero_eval _ AXIS_ROLL hg0 hlg0 hd10 hd20 ht0 hincl
  · rw [Function.update_noteq (by decide : AXIS_PITCH ≠ AXIS_YAW),
      (cg_fields _ _ _ _ _ AXIS_YAW).1]
    dsimp only
    rw [Function.update_same]
    refine clp_zero_eval _ AXIS_PITCH ?_ ?_ ?_ ?_ ?_ ?_
    · dsimp only
      rw [clp_errorGyroI_other _ _ _ _ (by decide : AXIS_PITCH ≠ AXIS_ROLL)]
      exact hg1
    · dsimp only
      rw [clp_lastGyro_other _ _ _ _ (by decide : AXIS_PITCH ≠ AXIS_ROLL)]
      exact hlg1
    · dsimp only
      rw [clp_delta1_other _ _ _ _ (by decide : AXIS_PITCH ≠ AXIS_ROLL)]
      exact hd11
    · dsimp only
      rw [clp_delta2_other _ _ _ _ (by decide : AXIS_PITCH ≠ AXIS_ROLL)]
      exact hd21
    · dsimp only
      rw [(clp_fields _ _ _ _ AXIS_ROLL).2.1]
      exact ht1
    · dsimp only
      rw [(clp_fields _ _ _ _ AXIS_ROLL).2.2]
      exact hincl
  · rw [Function.update_same]
    refine yaw_zero_eval _ ?_ ?_
    · dsimp only
      rw [clp_errorGyroI_other _ _ _ _ (by decide : AXIS_YAW ≠ AXIS_PITCH)]
      dsimp only
      rw [clp_errorGyroI_other _ _ _ _ (by decide : AXIS_YAW ≠ AXIS_ROLL)]
      exact hg2
    · dsimp only
      rw [(clp_fields _ _ _ _ AXIS_PITCH).2.1]
      dsimp only
      rw [(clp_fields _ _ _ _ AXIS_ROLL).2.1]
      exact ht2

theorem reset_facts (s : StabState) :
    (Stabilize.resetIntegral s).errorGyroI AXIS_ROLL = 0 ∧
    (Stabilize.resetIntegral s).errorGyroI AXIS_PITCH = 0 ∧
    (Stabilize.resetIntegral s).errorGyroI AXIS_YAW = 0 ∧
    (Stabilize.resetIntegral s).lastGyro = s.lastGyro ∧
    (Stabilize.resetIntegral s).delta1 = s.delta1 ∧
    (Stabilize.resetIntegral s).delta2 = s.delta2 ∧
    (Stabilize.resetIntegral s).pidConfig = s.pidConfig ∧
    (Stabilize.resetIntegral s).imuConfig = s.imuConfig := by
  dsimp only [Stabilize.resetIntegral]
  refine ⟨?_, ?_, ?_, rfl, rfl, rfl, rfl, rfl⟩
  · rw [Function.update_noteq (by decide), Function.update_noteq (by decide),
      Function.update_same]
  · rw [Function.update_noteq (by decide), Function.update_same]
  · rw [Function.update_same]

/-- C4 counterexample: with every gain, every input, every integral and
every derivative-history cell equal to zero but a software trim of 5 on
the roll axis, `resetIntegral` followed by one `update` with all-zero
stick demands, gyro samples, and Euler angles yields a roll correction
of 5, not 0.  So the claim fails for some configurations (the trim is
added to the output, and the derivative history is likewise not
cleared by the reset). -/
theorem stab_reset_zero_tick_cex :
    (Stabilize.update (Stabilize.resetIntegral
        ⟨fun _ => 0, fun _ => 0, fun _ => 0, fun _ => 0, fun _ => 0, fun _ => 0,
          ⟨0⟩, ⟨0, 0, 0, 0, 0, 0, fun _ => 5⟩⟩)
        (fun _ => 0) (fun _ => 0) (fun _ => 0)).axisPID AXIS_ROLL ≠ 0 := by
  norm_num [Stabilize.update, Stabilize.computeLevelPid, Stabilize.computeITermGyro,
    Stabilize.computePid, Stabilize.levelDTerm, Stabilize.resetIntegral, cTrunc, toInt16,
    constrain, Function.update_apply, AXIS_ROLL, AXIS_PITCH, AXIS_YAW,
    DEMAND_PITCH, DEMAND_ROLL, DEMAND_YAW]

/-- C4 (amended): for every configuration with zero software trims and a
nonnegative maximum-inclination bound, and every prior state whose
derivative history (`lastGyro`, `delta1`, `delta2`) is zero (e.g. a
cold start, since `init` zeroes the history), calling
`Stabilize::resetIntegral` followed by one `Stabilize::update` with all
stick demands zero, all gyro samples zero, and all Euler angles zero
yields a correction of exactly zero on each of the three axes. -/
theorem stab_reset_zero_tick (s : StabState)
    (ht0 : s.pidConfig.softwareTrim AXIS_ROLL = 0)
    (ht1 : s.pidConfig.softwareTrim AXIS_PITCH = 0)
    (ht2 : s.pidConfig.softwareTrim AXIS_YAW = 0)
    (hlg0 : s.lastGyro AXIS_ROLL = 0) (hlg1 : s.lastGyro AXIS_PITCH = 0)
    (hd10 : s.delta1 AXIS_ROLL = 0) (hd11 : s.delta1 AXIS_PITCH = 0)
    (hd20 : s.delta2 AXIS_ROLL = 0) (hd21 : s.delta2 AXIS_PITCH = 0)
    (hincl : 0 ≤ s.imuConfig.maxAngleInclination) :
    (Stabilize.update (Stabilize.resetIntegral s)
        (fun _ => 0) (fun _ => 0) (fun _ => 0)).axisPID AXIS_ROLL = 0 ∧
    (Stabilize.update (Stabilize.resetIntegral s)
        (fun _ => 0) (fun _ => 0) (fun _ => 0)).axisPID AXIS_PITCH = 0 ∧
    (Stabilize.update (Stabilize.resetIntegral s)
        (fun _ => 0) (fun _ => 0) (fun _ => 0)).axisPID AXIS_YAW = 0 := by
  obtain ⟨hg0, hg1, hg2, hlg, hd1, hd2, hpc, him⟩ := reset_facts s
  exact update_zero_eval _ hg0 hg1 hg2
    (by rw [hlg]; exact hlg0) (by rw [hlg]; exact hlg1)
    (by rw [hd1]; exact hd10) (by rw [hd1]; exact hd11)
    (by rw [hd2]; exact hd20) (by rw [hd2]; exact hd21)
    (by rw [hpc]; exact ht0) (by rw [hpc]; exact ht1) (by rw [hpc]; exact ht2)
    (by rw [him]; exact hincl)

theorem stab_reset_zero_tick_witness :
    (Stabilize.update (Stabilize.resetIntegral
        ⟨fun _ => 7, fun _ => 0, fun _ => 0, fun _ => 0, fun _ => 4000, fun _ => 3000,
          ⟨500⟩, ⟨1, 1, 1, 1, 1, 1, fun _ => 0⟩⟩)
        (fun _ => 0) (fun _ => 0) (fun _ => 0)).axisPID AXIS_ROLL = 0 ∧
    (Stabilize.update (Stabilize.resetIntegral
        ⟨fun _ => 7, fun _ => 0, fun _ => 0, fun _ => 0, fun _ => 4000, fun _ => 3000,
          ⟨500⟩, ⟨1, 1, 1, 1, 1, 1, fun _ => 0⟩⟩)
        (fun _ => 0) (fun _ => 0) (fun _ => 0)).axisPID AXIS_PITCH = 0 ∧
    (Stabilize.update (Stabilize.resetIntegral
        ⟨fun _ => 7, fun _ => 0, fun _ => 0, fun _ => 0, fun _ => 4000, fun _ => 3000,
          ⟨500⟩, ⟨1, 1, 1, 1, 1, 1, fun _ => 0⟩⟩)
        (fun _ => 0) (fun _ => 0) (fun _ => 0)).axisPID AXIS_YAW = 0 :=
  stab_reset_zero_tick _ rfl rfl rfl rfl rfl rfl rfl rfl rfl (by decide)
